import Mathlib

/-!
Verification of the Freshdesk plugin repository: a shallow embedding of
`custom-recipes/freshdesk-tickets-fetcher/recipe.py` (auth-header builder,
paginated ticket search, conversation enrichment) and of
`python-agent-tools/freshdesk-tool/tool.py` (the `FreshdeskTool.invoke`
action dispatcher), together with theorems settling the spec's claims.

JSON values returned by the Freshdesk API are modelled by `JVal`; Python
dicts appear as association lists preserving insertion order.  HTTP traffic
is modelled by an oracle (`Api`) mapping each request to a response or a
transport error, and every modelled operation returns the list of requests
it issued, in order, next to its result, so that claims about which calls
happen (and in which order) are statements about that trace.
-/

/-- JSON values (the shape of Freshdesk API request and response bodies).
Python `None` is `null`; dicts keep their insertion order. -/
inductive JVal where
  | null : JVal
  | num : Int → JVal
  | str : String → JVal
  | bool : Bool → JVal
  | arr : List JVal → JVal
  | obj : List (String × JVal) → JVal

/-- Association-list lookup, the model of Python `dict[k]` access
(`none` models a `KeyError`). -/
def lookup? : List (String × JVal) → String → Option JVal
  | [], _ => none
  | (k', v) :: rest, k => if k' = k then some v else lookup? rest k

/-- Python `dict.get(k)`: the stored value, or `None` when absent. -/
def lookupD (fields : List (String × JVal)) (k : String) : JVal :=
  match lookup? fields k with
  | some v => v
  | none => JVal.null

/-- Python `d.get(k)` on a JSON value: `null` when the value is not an
object or the key is absent.  (The code only applies `.get` to dicts; the
non-object case mirrors `{}.get(k)` after a `.get(_, {})` default.) -/
def JVal.getD : JVal → String → JVal
  | .obj fields, k => lookupD fields k
  | _, _ => .null

/-- Python `d[k]` on a JSON object (`none` models a `KeyError`). -/
def JVal.index : JVal → String → Option JVal
  | .obj fields, k => lookup? fields k
  | _, _ => none

/-- Python dict assignment `d[k] = v`: replaces the value in place when the
key exists, otherwise appends the new pair. -/
def setKey : List (String × JVal) → String → JVal → List (String × JVal)
  | [], k, v => [(k, v)]
  | (k', v') :: rest, k, v =>
      if k' = k then (k, v) :: rest else (k', v') :: setKey rest k v

/-- Python truthiness of a JSON value (`if ticket_id:` in the recipe). -/
def JVal.truthy : JVal → Bool
  | .null => false
  | .num n => n != 0
  | .str s => !s.isEmpty
  | .bool b => b
  | .arr xs => !xs.isEmpty
  | .obj fields => !fields.isEmpty

/-- `v == JVal.str s` as Python evaluates `value == some_string`
(a non-string value is simply unequal). -/
def JVal.eqStr : JVal → String → Bool
  | .str s', s => s' == s
  | _, _ => false

/-- `v == JVal.num n` as Python evaluates `value == some_int`. -/
def JVal.eqNum : JVal → Int → Bool
  | .num n', n => n' == n
  | _, _ => false

/-- Python `str(...)` of a JSON value as interpolated into the f-string
URLs (ticket ids are integers in practice). -/
def JVal.render : JVal → String
  | .null => "None"
  | .num n => toString n
  | .str s => s
  | .bool b => if b then "True" else "False"
  | .arr _ => ""
  | .obj _ => ""

/-! ### Auth Header Builder (`create_auth_headers` / `_make_request` headers)

`base64.b64encode` over ASCII bytes, standard alphabet, no line wrapping. -/

/-- The standard base64 alphabet as a list of characters. -/
def base64Alphabet : List Char :=
  "ABCDEFGHIJKLMNOPQRSTUVWXYZabcdefghijklmnopqrstuvwxyz0123456789+/".toList

/-- The base64 digit for a 6-bit group. -/
def b64Char (n : Nat) : Char := base64Alphabet.getD n '='

/-- `base64.b64encode` on a byte list: 3 bytes become 4 digits, a tail of
1 or 2 bytes is padded with `=`. -/
def b64encode : List Nat → List Char
  | [] => []
  | [a] =>
      [b64Char (a / 4), b64Char (a % 4 * 16), '=', '=']
  | [a, b] =>
      [b64Char (a / 4), b64Char (a % 4 * 16 + b / 16), b64Char (b % 16 * 4), '=']
  | a :: b :: c :: rest =>
      b64Char (a / 4) :: b64Char (a % 4 * 16 + b / 16) ::
        b64Char (b % 16 * 4 + c / 64) :: b64Char (c % 64) :: b64encode rest

/-- `s.encode('ascii')`: the code points of the string (keys are ASCII). -/
def encodeAscii (s : String) : List Nat := s.toList.map Char.toNat

/-- `create_auth_headers(api_key)` from `recipe.py` (also the header block
of `FreshdeskTool._make_request`): `api_key + ":X"`, ASCII-encoded,
base64-encoded, prefixed with `Basic `. -/
def create_auth_headers (api_key : String) : List (String × String) :=
  let auth_string := api_key ++ ":X"
  let base64_auth := String.mk (b64encode (encodeAscii auth_string))
  [("Content-Type", "application/json"),
   ("Authorization", "Basic " ++ base64_auth)]

/-! ### Ticket Extraction Job (`fetch_tickets` query building and pagination) -/

/-- The status-filter predicate of `fetch_tickets`:
`" OR ".join([f"status:{status}" for status in ticket_statuses])`. -/
def statusQuery (ticket_statuses : List String) : String :=
  String.intercalate " OR " (ticket_statuses.map (fun status => "status:" ++ status))

/-- The `query=...` parameter of `fetch_tickets`: the quoted predicate when
statuses are given, `query=\"\"` otherwise (Python truthiness of the list). -/
def buildQuery (ticket_statuses : List String) : String :=
  if ticket_statuses.isEmpty then
    "query=\"\""
  else
    "query=\"" ++ statusQuery ticket_statuses ++ "\""

/-- The `while True` pagination loop of `fetch_tickets`.  `pages p` is the
`results` list of the response for `page=p`; the loop extends the
accumulator with each page and stops when a page is empty.  The Python loop
is unbounded, so it is given fuel: `none` means the fuel ran out before an
empty page was seen (the loop would still be running).  On termination it
returns the accumulated tickets and the number of requests issued. -/
def fetchLoop (pages : Nat → List JVal) : Nat → Nat → List JVal → Option (List JVal × Nat)
  | 0, _, _ => none
  | fuel + 1, page, acc =>
      let tickets := pages page
      let acc' := acc ++ tickets
      if tickets.isEmpty then some (acc', page)
      else fetchLoop pages fuel (page + 1) acc'

/-- `fetch_tickets`: `all_tickets = []`, `page = 1`, then the loop. -/
def fetch_tickets (pages : Nat → List JVal) (fuel : Nat) : Option (List JVal × Nat) :=
  fetchLoop pages fuel 1 []

/-! ### Conversation enrichment (`fetch_conversations`) -/

/-- The body of the conversation-projection comprehension inside
`fetch_conversations`: one conversation becomes a dict with exactly the
keys `body_text`, `id`, `updated_at`, `from_email`, each holding
`conv.get(key)` (so `null` when the source field is missing). -/
def projectConv (conv : JVal) : JVal :=
  JVal.obj
    [("body_text", conv.getD "body_text"),
     ("id", conv.getD "id"),
     ("updated_at", conv.getD "updated_at"),
     ("from_email", conv.getD "from_email")]

/-- The `filtered_conversations` list comprehension of
`fetch_conversations`, applied to the decoded response. -/
def filterConversations (conversations : List JVal) : List JVal :=
  conversations.map projectConv

/-- `fetch_conversations`: each ticket is a dict; when its `id` is truthy
the conversations endpoint is consulted (`convApi`, keyed by the id value,
returning the decoded JSON list or a `requests` error).  On success the
filtered list is attached under `conversations`; on a request error the
ticket gets `conversations = []`; a ticket with no truthy id is untouched.
The function always returns every ticket, in order. -/
def fetch_conversations (convApi : JVal → Except String (List JVal))
    (tickets : List (List (String × JVal))) : List (List (String × JVal)) :=
  tickets.map (fun ticket =>
    let ticket_id := lookupD ticket "id"
    if ticket_id.truthy then
      match convApi ticket_id with
      | .ok conversations =>
          setKey ticket "conversations" (.arr (filterConversations conversations))
      | .error _ =>
          setKey ticket "conversations" (.arr [])
    else ticket)

/-! ### Ticket Action Tool (`FreshdeskTool`)

`invoke` is modelled as a pure function of the configuration, an API oracle
(what the Freshdesk service answers to each request) and the input `args`;
it returns the ordered list of HTTP requests it issued next to either an
output payload or the exception it raised. -/

/-- The tool's configuration (`set_config`). -/
structure Config where
  api_key : String
  domain : String
  ticket_types : List String

/-- One HTTP request issued through `_make_request`. -/
structure Request where
  method : String
  endpoint : String
  data : Option (List (String × JVal))
  params : Option (List (String × String))

/-- The Freshdesk service, as an oracle: each request gets a decoded JSON
response or a transport/HTTP error (`requests.exceptions.RequestException`). -/
def Api : Type := Request → Except String JVal

/-- The exceptions `invoke` can raise: `ValueError` (validation and
authorization), `KeyError` (a `result[...]` access on a missing key),
`TypeError` (iterating/indexing a non-list response), and a re-raised
request exception from `_make_request`. -/
inductive ToolErr where
  | valueError : String → ToolErr
  | keyError : String → ToolErr
  | typeError : String → ToolErr
  | httpError : String → ToolErr

/-- `_make_request`: issues the request (appending it to the trace) and
returns the decoded JSON, re-raising request errors. -/
def make_request (api : Api) (trace : List Request) (method endpoint : String)
    (data : Option (List (String × JVal)))
    (params : Option (List (String × String))) :
    List Request × Except ToolErr JVal :=
  let req : Request := { method := method, endpoint := endpoint, data := data, params := params }
  match api req with
  | .ok j => (trace ++ [req], .ok j)
  | .error e => (trace ++ [req], .error (.httpError e))

/-- `https://<domain>/helpdesk/tickets/<id>`. -/
def ticketUrl (domain : String) (idv : JVal) : String :=
  "https://" ++ domain ++ "/helpdesk/tickets/" ++ idv.render

/-- One item of a `sources` entry (always `SIMPLE_DOCUMENT` typed). -/
structure SourceItem where
  itemType : String
  title : String
  url : String

/-- One `sources` entry of a successful result. -/
structure SourceRef where
  toolCallDescription : String
  items : List SourceItem

/-- The `output` half of a successful result (fields that a given action
does not emit are `none`). -/
structure Output where
  message : String
  ticket_id : Option JVal
  url : Option String
  ticket : Option JVal
  tickets : Option JVal
  sources : List SourceRef

/-- The tool's input `args`: `action` plus the optional fields of the input
schema (`none` models "key absent from the args dict"). -/
structure Args where
  action : String
  ticket_id : Option Int
  search_by : Option String
  requester_email : Option String
  subject : Option String
  description : Option String
  name : Option String
  type : Option String
  tags : Option (List String)
  priority : Option Int
  status : Option Int

/-- `"f" in args and args["f"] not in allowed` for an integer enum field. -/
def invalidOpt (v : Option Int) (allowed : List Int) : Bool :=
  match v with
  | some n => !(allowed.contains n)
  | none => false

/-- `"type" in args and args["type"] not in self.ticket_types`. -/
def invalidType (v : Option String) (allowed : List String) : Bool :=
  match v with
  | some t => !(allowed.contains t)
  | none => false

/-- The fixed email-mismatch authorization message. -/
def emailMismatchMsg : String :=
  "The provided requester email does not match the ticket's requester email"

/-- `ticket.get("requester", {}).get("email") != args["requester_email"]`. -/
def requesterMismatch (ticket : JVal) (email : String) : Bool :=
  !((ticket.getD "requester").getD "email").eqStr email

/-- The `create_ticket` branch of `invoke`: required-field check in source
order, then priority/status/type validation, then one POST. -/
def createTicket (cfg : Config) (api : Api) (args : Args) :
    List Request × Except ToolErr Output :=
  match args.subject with
  | none => ([], .error (.valueError "Missing required field: subject"))
  | some subject =>
  match args.description with
  | none => ([], .error (.valueError "Missing required field: description"))
  | some description =>
  match args.requester_email with
  | none => ([], .error (.valueError "Missing required field: requester_email"))
  | some requester_email =>
  match args.name with
  | none => ([], .error (.valueError "Missing required field: name"))
  | some name =>
  if invalidOpt args.priority [1, 2, 3, 4] then
    ([], .error (.valueError "Priority must be one of: 1 (Low), 2 (Medium), 3 (High), 4 (Urgent)"))
  else if invalidOpt args.status [2, 3, 4, 5] then
    ([], .error (.valueError "Status must be one of: 2 (Open), 3 (Pending), 4 (Resolved), 5 (Closed)"))
  else if invalidType args.type cfg.ticket_types then
    ([], .error (.valueError ("Type must be one of: " ++ String.intercalate ", " cfg.ticket_types)))
  else
    let ticket_data : List (String × JVal) :=
      [("subject", .str subject),
       ("description", .str description),
       ("email", .str requester_email),
       ("name", .str name),
       ("priority", .num (args.priority.getD 1)),
       ("status", .num (args.status.getD 2))]
    let ticket_data :=
      match args.type with
      | some t => ticket_data ++ [("type", .str t)]
      | none => ticket_data
    let ticket_data :=
      match args.tags with
      | some ts => ticket_data ++ [("tags", .arr (ts.map JVal.str))]
      | none => ticket_data
    let (tr, r) := make_request api [] "POST" "tickets" (some ticket_data) none
    match r with
    | .error e => (tr, .error e)
    | .ok result =>
      match result.index "id" with
      | none => (tr, .error (.keyError "id"))
      | some rid =>
        (tr, .ok
          { message := "Ticket created successfully",
            ticket_id := some rid,
            url := some (ticketUrl cfg.domain rid),
            ticket := some result,
            tickets := none,
            sources := [{ toolCallDescription := "Created Freshdesk ticket with subject: " ++ subject,
                          items := [{ itemType := "SIMPLE_DOCUMENT",
                                      title := "Ticket #" ++ rid.render,
                                      url := ticketUrl cfg.domain rid }] }] })

/-- The request that fetches a ticket with its requester included
(`GET tickets/<id>?include=requester`), issued by the three
authorization-gated actions before anything else. -/
def fetchTicketReq (tid : Int) : Request :=
  { method := "GET",
    endpoint := "tickets/" ++ toString tid,
    data := none,
    params := some [("include", "requester")] }

/-- `ticket["url"] = f"https://{domain}/helpdesk/tickets/{ticket['id']}"`
for one element of the by-email result list (a `KeyError` when `id` is
missing, a `TypeError` when the element is not a dict). -/
def addUrl (domain : String) : JVal → Except ToolErr JVal
  | .obj fields =>
      match lookup? fields "id" with
      | some idv => .ok (.obj (setKey fields "url" (.str (ticketUrl domain idv))))
      | none => .error (.keyError "id")
  | _ => .error (.typeError "ticket is not a dict")

/-- One `sources` item for one ticket of the by-email result list. -/
def ticketItem (domain : String) : JVal → Except ToolErr SourceItem
  | .obj fields =>
      match lookup? fields "id" with
      | some idv =>
          .ok { itemType := "SIMPLE_DOCUMENT",
                title := "Ticket #" ++ idv.render,
                url := ticketUrl domain idv }
      | none => .error (.keyError "id")
  | _ => .error (.typeError "ticket is not a dict")

/-- The `get_tickets` branch of `invoke`: dispatch on `search_by`; the
`id` branch fetches the ticket with the requester included and enforces the
requester-email check; the `requester_email` branch lists tickets filtered
by email and decorates each with its URL. -/
def getTickets (cfg : Config) (api : Api) (args : Args) :
    List Request × Except ToolErr Output :=
  match args.search_by with
  | none => ([], .error (.valueError "Missing required field: search_by"))
  | some search_by =>
  if search_by = "id" then
    match args.ticket_id with
    | none => ([], .error (.valueError "Missing required field: ticket_id"))
    | some tid =>
    match args.requester_email with
    | none => ([], .error (.valueError "Missing required field: requester_email"))
    | some requester_email =>
      let (tr, r) := make_request api [] "GET" ("tickets/" ++ toString tid)
        none (some [("include", "requester")])
      match r with
      | .error e => (tr, .error e)
      | .ok result =>
        if requesterMismatch result requester_email then
          (tr, .error (.valueError emailMismatchMsg))
        else
          match result.index "id" with
          | none => (tr, .error (.keyError "id"))
          | some rid =>
            (tr, .ok
              { message := "Ticket retrieved successfully",
                ticket_id := some rid,
                url := some (ticketUrl cfg.domain rid),
                ticket := some result,
                tickets := none,
                sources := [{ toolCallDescription := "Retrieved Freshdesk ticket #" ++ toString tid,
                              items := [{ itemType := "SIMPLE_DOCUMENT",
                                          title := "Ticket #" ++ rid.render,
                                          url := ticketUrl cfg.domain rid }] }] })
  else if search_by = "requester_email" then
    match args.requester_email with
    | none => ([], .error (.valueError "Missing required field: requester_email"))
    | some requester_email =>
      let (tr, r) := make_request api [] "GET" "tickets"
        none (some [("email", requester_email)])
      match r with
      | .error e => (tr, .error e)
      | .ok result =>
        match result with
        | .arr ts =>
          match ts.mapM (addUrl cfg.domain) with
          | .error e => (tr, .error e)
          | .ok ts' =>
            match ts'.mapM (ticketItem cfg.domain) with
            | .error e => (tr, .error e)
            | .ok items =>
              (tr, .ok
                { message := "Found " ++ toString ts'.length ++ " tickets for requester " ++ requester_email,
                  ticket_id := none,
                  url := none,
                  ticket := none,
                  tickets := some (.arr ts'),
                  sources := [{ toolCallDescription := "Retrieved Freshdesk tickets for requester: " ++ requester_email,
                                items := items }] })
        | _ => (tr, .error (.typeError "response is not a list"))
  else
    ([], .error (.valueError ("Invalid search_by value: " ++ search_by)))

/-- The `close_ticket` branch of `invoke`: required fields, fetch with
requester, email check, early return when already closed (status 5),
otherwise `PUT status=5` followed by a public audit note `POST`. -/
def closeTicket (cfg : Config) (api : Api) (args : Args) :
    List Request × Except ToolErr Output :=
  match args.ticket_id with
  | none => ([], .error (.valueError "Missing required field: ticket_id"))
  | some tid =>
  match args.requester_email with
  | none => ([], .error (.valueError "Missing required field: requester_email"))
  | some requester_email =>
    let (tr1, r1) := make_request api [] "GET" ("tickets/" ++ toString tid)
      none (some [("include", "requester")])
    match r1 with
    | .error e => (tr1, .error e)
    | .ok ticket =>
      if requesterMismatch ticket requester_email then
        (tr1, .error (.valueError emailMismatchMsg))
      else if (ticket.getD "status").eqNum 5 then
        match ticket.index "id" with
        | none => (tr1, .error (.keyError "id"))
        | some tidv =>
          (tr1, .ok
            { message := "Ticket is already closed",
              ticket_id := some tidv,
              url := some (ticketUrl cfg.domain tidv),
              ticket := some ticket,
              tickets := none,
              sources := [{ toolCallDescription := "Checked status of Freshdesk ticket #" ++ toString tid,
                            items := [{ itemType := "SIMPLE_DOCUMENT",
                                        title := "Ticket #" ++ tidv.render,
                                        url := ticketUrl cfg.domain tidv }] }] })
      else
        let (tr2, r2) := make_request api tr1 "PUT" ("tickets/" ++ toString tid)
          (some [("status", .num 5)]) none
        match r2 with
        | .error e => (tr2, .error e)
        | .ok result =>
          let (tr3, r3) := make_request api tr2 "POST" ("tickets/" ++ toString tid ++ "/notes")
            (some [("body", .str ("Ticket closed as requested by the original requester (" ++ requester_email ++ ")")),
                   ("private", .bool false)]) none
          match r3 with
          | .error e => (tr3, .error e)
          | .ok _ =>
            match result.index "id" with
            | none => (tr3, .error (.keyError "id"))
            | some rid =>
              (tr3, .ok
                { message := "Ticket closed successfully",
                  ticket_id := some rid,
                  url := some (ticketUrl cfg.domain rid),
                  ticket := some result,
                  tickets := none,
                  sources := [{ toolCallDescription := "Closed Freshdesk ticket #" ++ toString tid,
                                items := [{ itemType := "SIMPLE_DOCUMENT",
                                            title := "Ticket #" ++ rid.render,
                                            url := ticketUrl cfg.domain rid }] }] })

/-- The `priority_levels` name table used in the audit-note body
(`invoke` only reads it after `priority` passed validation, so 1..4). -/
def priorityLevelName (p : Int) : String :=
  if p = 1 then "Low"
  else if p = 2 then "Medium"
  else if p = 3 then "High"
  else "Urgent"

/-- The `update_ticket_priority` branch of `invoke`: required fields,
priority validation, fetch with requester, email check, early return when
the priority already matches, otherwise `PUT priority=<p>` followed by a
public audit note `POST`. -/
def updateTicketPriority (cfg : Config) (api : Api) (args : Args) :
    List Request × Except ToolErr Output :=
  match args.ticket_id with
  | none => ([], .error (.valueError "Missing required field: ticket_id"))
  | some tid =>
  match args.requester_email with
  | none => ([], .error (.valueError "Missing required field: requester_email"))
  | some requester_email =>
  match args.priority with
  | none => ([], .error (.valueError "Missing required field: priority"))
  | some priority =>
  if !([1, 2, 3, 4] : List Int).contains priority then
    ([], .error (.valueError "Priority must be one of: 1 (Low), 2 (Medium), 3 (High), 4 (Urgent)"))
  else
    let (tr1, r1) := make_request api [] "GET" ("tickets/" ++ toString tid)
      none (some [("include", "requester")])
    match r1 with
    | .error e => (tr1, .error e)
    | .ok ticket =>
      if requesterMismatch ticket requester_email then
        (tr1, .error (.valueError emailMismatchMsg))
      else if (ticket.getD "priority").eqNum priority then
        match ticket.index "id" with
        | none => (tr1, .error (.keyError "id"))
        | some tidv =>
          (tr1, .ok
            { message := "Ticket priority is already at the requested level",
              ticket_id := some tidv,
              url := some (ticketUrl cfg.domain tidv),
              ticket := some ticket,
              tickets := none,
              sources := [{ toolCallDescription := "Checked priority of Freshdesk ticket #" ++ toString tid,
                            items := [{ itemType := "SIMPLE_DOCUMENT",
                                        title := "Ticket #" ++ tidv.render,
                                        url := ticketUrl cfg.domain tidv }] }] })
      else
        let (tr2, r2) := make_request api tr1 "PUT" ("tickets/" ++ toString tid)
          (some [("priority", .num priority)]) none
        match r2 with
        | .error e => (tr2, .error e)
        | .ok result =>
          let (tr3, r3) := make_request api tr2 "POST" ("tickets/" ++ toString tid ++ "/notes")
            (some [("body", .str ("Ticket priority updated to " ++ priorityLevelName priority ++
                      " as requested by the original requester (" ++ requester_email ++ ")")),
                   ("private", .bool false)]) none
          match r3 with
          | .error e => (tr3, .error e)
          | .ok _ =>
            match result.index "id" with
            | none => (tr3, .error (.keyError "id"))
            | some rid =>
              (tr3, .ok
                { message := "Ticket priority updated successfully",
                  ticket_id := some rid,
                  url := some (ticketUrl cfg.domain rid),
                  ticket := some result,
                  tickets := none,
                  sources := [{ toolCallDescription := "Updated priority of Freshdesk ticket #" ++ toString tid ++
                                  " to " ++ toString priority,
                                items := [{ itemType := "SIMPLE_DOCUMENT",
                                            title := "Ticket #" ++ rid.render,
                                            url := ticketUrl cfg.domain rid }] }] })

/-- `FreshdeskTool.invoke`: dispatch on `args["action"]`. -/
def invoke (cfg : Config) (api : Api) (args : Args) :
    List Request × Except ToolErr Output :=
  if args.action = "create_ticket" then createTicket cfg api args
  else if args.action = "get_tickets" then getTickets cfg api args
  else if args.action = "close_ticket" then closeTicket cfg api args
  else if args.action = "update_ticket_priority" then updateTicketPriority cfg api args
  else ([], .error (.valueError ("Invalid action: " ++ args.action)))

/-- The concatenation of `pages lo, pages (lo+1), ..., pages (lo+n-1)` in
request order (what the pagination accumulator is claimed to equal). -/
def pagesConcat (pages : Nat → List JVal) (lo n : Nat) : List JVal :=
  match n with
  | 0 => []
  | n + 1 => pages lo ++ pagesConcat pages (lo + 1) n

/-- The `PUT` issued by `close_ticket` (`update_data = {"status": 5}`). -/
def closePutReq (tid : Int) : Request :=
  { method := "PUT",
    endpoint := "tickets/" ++ toString tid,
    data := some [("status", .num 5)],
    params := none }

/-- The audit-note `POST` issued by `close_ticket`. -/
def closeNoteReq (tid : Int) (email : String) : Request :=
  { method := "POST",
    endpoint := "tickets/" ++ toString tid ++ "/notes",
    data := some [("body", .str ("Ticket closed as requested by the original requester (" ++ email ++ ")")),
                  ("private", .bool false)],
    params := none }

/-- The `PUT` issued by `update_ticket_priority`
(`update_data = {"priority": p}`). -/
def priorityPutReq (tid : Int) (p : Int) : Request :=
  { method := "PUT",
    endpoint := "tickets/" ++ toString tid,
    data := some [("priority", .num p)],
    params := none }

/-- The audit-note `POST` issued by `update_ticket_priority`. -/
def priorityNoteReq (tid : Int) (p : Int) (email : String) : Request :=
  { method := "POST",
    endpoint := "tickets/" ++ toString tid ++ "/notes",
    data := some [("body", .str ("Ticket priority updated to " ++ priorityLevelName p ++
                    " as requested by the original requester (" ++ email ++ ")")),
                  ("private", .bool false)],
    params := none }

/-! ### Concrete fixtures (used by witness theorems) -/

/-- A concrete configuration. -/
def exCfg : Config :=
  { api_key := "abc123", domain := "example.freshdesk.com",
    ticket_types := ["Question", "Incident"] }

/-- A concrete open ticket (id 101, status Open, priority Low) requested by
`alice@example.com`, as the fetch-with-requester endpoint returns it. -/
def aliceTicket : JVal :=
  .obj [("id", .num 101), ("status", .num 2), ("priority", .num 1),
        ("requester", .obj [("email", .str "alice@example.com")])]

/-- The same ticket already closed (status 5). -/
def aliceClosedTicket : JVal :=
  .obj [("id", .num 101), ("status", .num 5), ("priority", .num 1),
        ("requester", .obj [("email", .str "alice@example.com")])]

/-- A service in which ticket fetches return `aliceTicket` and mutations
succeed. -/
def exApiOpen : Api := fun req =>
  if req.method = "GET" then .ok aliceTicket
  else if req.method = "PUT" then .ok (.obj [("id", .num 101), ("status", .num 5)])
  else .ok (.obj [("id", .num 900)])

/-- A service in which ticket fetches return the already-closed ticket. -/
def exApiClosed : Api := fun req =>
  if req.method = "GET" then .ok aliceClosedTicket
  else .ok (.obj [("id", .num 900)])

/-- `args` with only `action` set (every optional field absent). -/
def emptyArgs (action : String) : Args :=
  { action := action, ticket_id := none, search_by := none,
    requester_email := none, subject := none, description := none,
    name := none, type := none, tags := none, priority := none, status := none }

/-- `close_ticket` args for ticket 101 from `alice@example.com`. -/
def argsClose : Args :=
  { emptyArgs "close_ticket" with
    ticket_id := some 101,
    requester_email := some "alice@example.com" }

/-- `close_ticket` args presenting the wrong requester email. -/
def argsCloseWrong : Args :=
  { argsClose with requester_email := some "bob@example.com" }

/-- `update_ticket_priority` args (ticket 101, alice, priority 3). -/
def argsUpdate : Args :=
  { emptyArgs "update_ticket_priority" with
    ticket_id := some 101,
    requester_email := some "alice@example.com", priority := some 3 }

/-- `update_ticket_priority` args requesting the current priority (1). -/
def argsUpdateSame : Args :=
  { argsUpdate with priority := some 1 }

/-- `update_ticket_priority` args with the wrong requester email. -/
def argsUpdateWrong : Args :=
  { argsUpdate with requester_email := some "bob@example.com" }

/-- `get_tickets` args searching by id with the wrong requester email. -/
def argsGetByIdWrong : Args :=
  { emptyArgs "get_tickets" with
    search_by := some "id", ticket_id := some 101,
    requester_email := some "bob@example.com" }

/-- Complete `create_ticket` args. -/
def argsCreate : Args :=
  { emptyArgs "create_ticket" with
    subject := some "Printer down",
    description := some "The printer is on fire", name := some "Alice",
    requester_email := some "alice@example.com" }

/-- The page oracle of the spec's pagination example: pages of sizes
50, 50, 17 and then empty. -/
def examplePages (k : Nat) : List JVal :=
  if k = 1 then List.replicate 50 JVal.null
  else if k = 2 then List.replicate 50 JVal.null
  else if k = 3 then List.replicate 17 JVal.null
  else []

/-- A conversations endpoint that answers for ticket 101 with one
conversation carrying extra fields, and fails for every other ticket. -/
def exConvApi : JVal → Except String (List JVal) := fun idv =>
  if idv.eqNum 101 then
    .ok [.obj [("body_text", .str "hello"), ("id", .num 7),
               ("attachments", .arr []), ("user_id", .num 42)]]
  else .error "connection reset"

/-- Two accumulated tickets: the first one's conversation fetch succeeds,
the second one's fails. -/
def exTickets : List (List (String × JVal)) :=
  [[("id", .num 101), ("subject", .str "a")],
   [("id", .num 202), ("subject", .str "b")]]

/-! ### Theorems -/

theorem intercalate_go_append (sep acc b : String) (t : List String) :
    String.intercalate.go acc sep (b :: t) = acc ++ sep ++ String.intercalate.go b sep t := by
  induction t generalizing acc b with
  | nil => simp [String.intercalate.go]
  | cons c t ih =>
    rw [String.intercalate.go, ih, ih]
    simp [String.append_assoc]

theorem intercalate_cons_cons (sep a b : String) (t : List String) :
    String.intercalate sep (a :: b :: t) = a ++ sep ++ String.intercalate sep (b :: t) := by
  show String.intercalate.go a sep (b :: t) = a ++ sep ++ String.intercalate.go b sep t
  exact intercalate_go_append sep a b t

theorem b64Char_mem (n : Nat) : b64Char n ∈ base64Alphabet ∨ b64Char n = '=' := by
  unfold b64Char
  rcases h : base64Alphabet.get? n with _ | c
  · right
    rw [List.getD_eq_getElem?_getD, ← List.get?_eq_getElem?, h]
    rfl
  · left
    rw [List.getD_eq_getElem?_getD, ← List.get?_eq_getElem?, h]
    exact List.get?_mem h

/-- Claim C2: for every API key `k` the auth-header builder returns exactly
the two-entry mapping with `Content-Type: application/json` and
`Authorization: Basic base64(k ++ ":X")`; every character the encoder
emits is a standard-alphabet digit or the `=` pad (no line wrapping); and
for `k = "abc123"` the Authorization value is the literal
`Basic YWJjMTIzOlg=`. -/
theorem auth_header_exact :
    (∀ api_key : String,
        create_auth_headers api_key =
          [("Content-Type", "application/json"),
           ("Authorization", "Basic " ++ String.mk (b64encode (encodeAscii (api_key ++ ":X"))))]) ∧
    (∀ (bs : List Nat) (c : Char), c ∈ b64encode bs → c ∈ base64Alphabet ∨ c = '=') ∧
    create_auth_headers "abc123" =
      [("Content-Type", "application/json"),
       ("Authorization", "Basic YWJjMTIzOlg=")] := by
  refine ⟨fun _ => rfl, ?_, by decide⟩
  intro bs
  induction bs using b64encode.induct with
  | case1 => intro c hc; simp [b64encode] at hc
  | case2 a =>
    intro c hc
    simp only [b64encode, List.mem_cons, List.not_mem_nil, or_false] at hc
    rcases hc with h | h | h | h
    · exact h ▸ b64Char_mem _
    · exact h ▸ b64Char_mem _
    · exact Or.inr h
    · exact Or.inr h
  | case3 a b =>
    intro c hc
    simp only [b64encode, List.mem_cons, List.not_mem_nil, or_false] at hc
    rcases hc with h | h | h | h
    · exact h ▸ b64Char_mem _
    · exact h ▸ b64Char_mem _
    · exact h ▸ b64Char_mem _
    · exact Or.inr h
  | case4 a b c' rest ih =>
    intro c hc
    simp only [b64encode, List.mem_cons] at hc
    rcases hc with h | h | h | h | h
    · exact h ▸ b64Char_mem _
    · exact h ▸ b64Char_mem _
    · exact h ▸ b64Char_mem _
    · exact h ▸ b64Char_mem _
    · exact ih c h

theorem auth_header_exact_witness :
    'Y' ∈ b64encode (encodeAscii "abc123:X") ∧ ('Y' ∈ base64Alphabet ∨ 'Y' = '=') :=
  ⟨by decide, auth_header_exact.2.1 (encodeAscii "abc123:X") 'Y' (by decide)⟩

/-- Claim C4: the search predicate is the `" OR "`-join of `status:<name>`
over exactly the given names in their given order (characterised by the
join's base and step equations), and the empty status list is sent as
`query=""`. -/
theorem status_query_spec :
    (∀ ticket_statuses : List String,
        buildQuery ticket_statuses = "query=\"" ++ statusQuery ticket_statuses ++ "\"") ∧
    buildQuery [] = "query=\"\"" ∧
    statusQuery [] = "" ∧
    (∀ s : String, statusQuery [s] = "status:" ++ s) ∧
    (∀ (s : String) (rest : List String), rest ≠ [] →
        statusQuery (s :: rest) = "status:" ++ s ++ " OR " ++ statusQuery rest) := by
  refine ⟨?_, rfl, rfl, fun s => rfl, ?_⟩
  · intro ts
    cases ts with
    | nil => rfl
    | cons a t => rfl
  · intro s rest hne
    cases rest with
    | nil => exact absurd rfl hne
    | cons b t =>
      simp only [statusQuery, List.map_cons]
      exact intercalate_cons_cons " OR " ("status:" ++ s) ("status:" ++ b)
        (t.map (fun status => "status:" ++ status))

theorem status_query_spec_witness :
    statusQuery ["open", "pending"] = "status:" ++ "open" ++ " OR " ++ statusQuery ["pending"] :=
  status_query_spec.2.2.2.2 "open" ["pending"] (by decide)

theorem fetchLoop_isSome_iff (pages : Nat → List JVal) :
    ∀ (fuel page : Nat) (acc : List JVal),
      (fetchLoop pages fuel page acc).isSome = true ↔ ∃ j, j < fuel ∧ pages (page + j) = [] := by
  intro fuel
  induction fuel with
  | zero => intro page acc; simp [fetchLoop]
  | succ n ih =>
    intro page acc
    rw [fetchLoop]
    by_cases h : (pages page).isEmpty = true
    · simp only [h, if_pos, Option.isSome_some, true_iff]
      exact ⟨0, Nat.succ_pos n, by simpa [List.isEmpty_iff] using h⟩
    · rw [if_neg h, ih]
      have hne : pages page ≠ [] := by simpa [List.isEmpty_iff] using h
      constructor
      · rintro ⟨j, hj, he⟩
        exact ⟨j + 1, by omega, by rw [show page + (j + 1) = page + 1 + j by omega]; exact he⟩
      · rintro ⟨j, hj, he⟩
        cases j with
        | zero => exact absurd he hne
        | succ j =>
          exact ⟨j, by omega, by rw [show page + 1 + j = page + (j + 1) by omega]; exact he⟩

theorem fetchLoop_eq_some (pages : Nat → List JVal) :
    ∀ (fuel page : Nat) (acc res : List JVal) (reqs : Nat),
      fetchLoop pages fuel page acc = some (res, reqs) →
      page ≤ reqs ∧ pages reqs = [] ∧ res = acc ++ pagesConcat pages page (reqs - page + 1) := by
  intro fuel
  induction fuel with
  | zero => intro page acc res reqs h; simp [fetchLoop] at h
  | succ n ih =>
    intro page acc res reqs h
    rw [fetchLoop] at h
    by_cases he : (pages page).isEmpty = true
    · rw [if_pos he] at h
      have hnil : pages page = [] := by simpa [List.isEmpty_iff] using he
      simp only [Option.some.injEq, Prod.mk.injEq] at h
      obtain ⟨hres, hreqs⟩ := h
      subst hreqs
      refine ⟨Nat.le_refl page, hnil, ?_⟩
      rw [← hres]
      simp [pagesConcat, hnil]
    · rw [if_neg he] at h
      obtain ⟨h1, h2, h3⟩ := ih (page + 1) (acc ++ pages page) res reqs h
      refine ⟨by omega, h2, ?_⟩
      rw [h3]
      rw [show reqs - page + 1 = (reqs - (page + 1) + 1) + 1 by omega]
      simp [pagesConcat, List.append_assoc]

/-- Claim C3: the pagination loop (page counter starting at 1) terminates
for some fuel iff some page's result list is empty; on termination the
accumulated list is the concatenation of the pages in request order and the
final request hit an empty page; on the spec's example of page sizes
[50, 50, 17, 0] it returns 117 tickets after exactly 4 requests. -/
theorem pagination_spec :
    (∀ pages : Nat → List JVal,
        (∃ fuel, (fetch_tickets pages fuel).isSome = true) ↔ (∃ k, 1 ≤ k ∧ pages k = [])) ∧
    (∀ (pages : Nat → List JVal) (fuel : Nat) (res : List JVal) (reqs : Nat),
        fetch_tickets pages fuel = some (res, reqs) →
        1 ≤ reqs ∧ pages reqs = [] ∧ res = pagesConcat pages 1 reqs) ∧
    fetch_tickets examplePages 4 = some (List.replicate 117 JVal.null, 4) := by
  refine ⟨?_, ?_, by rfl⟩
  · intro pages
    constructor
    · rintro ⟨fuel, hs⟩
      obtain ⟨j, _, he⟩ := (fetchLoop_isSome_iff pages fuel 1 []).mp hs
      exact ⟨1 + j, by omega, he⟩
    · rintro ⟨k, hk, he⟩
      refine ⟨k, (fetchLoop_isSome_iff pages k 1 []).mpr ⟨k - 1, by omega, ?_⟩⟩
      rw [show 1 + (k - 1) = k by omega]
      exact he
  · intro pages fuel res reqs h
    obtain ⟨h1, h2, h3⟩ := fetchLoop_eq_some pages fuel 1 [] res reqs h
    refine ⟨h1, h2, ?_⟩
    rw [h3, show reqs - 1 + 1 = reqs by omega]
    simp

theorem pagination_spec_witness :
    1 ≤ 4 ∧ examplePages 4 = [] ∧
      List.replicate 117 JVal.null = pagesConcat examplePages 1 4 :=
  pagination_spec.2.1 examplePages 4 (List.replicate 117 JVal.null) 4 (by rfl)

theorem lookup?_setKey_self (fields : List (String × JVal)) (k : String) (v : JVal) :
    lookup? (setKey fields k v) k = some v := by
  induction fields with
  | nil => simp [setKey, lookup?]
  | cons p rest ih =>
    obtain ⟨k', v'⟩ := p
    by_cases h : k' = k
    · simp [setKey, h, lookup?]
    · simp [setKey, h, lookup?, ih]

theorem lookup?_setKey_ne (fields : List (String × JVal)) (k k' : String) (v : JVal)
    (hne : k' ≠ k) :
    lookup? (setKey fields k v) k' = lookup? fields k' := by
  induction fields with
  | nil => simp [setKey, lookup?, Ne.symm hne]
  | cons p rest ih =>
    obtain ⟨a, b⟩ := p
    by_cases h : a = k
    · subst h
      simp [setKey, lookup?, Ne.symm hne]
    · simp only [setKey, if_neg h, lookup?]
      by_cases h2 : a = k'
      · simp [h2]
      · simp [h2, ih]

/-- Claim C5: the enrichment projects every conversation record to a dict
whose key lookups succeed exactly on `body_text`, `id`, `updated_at` and
`from_email` (each carrying the source's `.get`, so `null` when the source
field is missing, and every other key absent), the projection is applied to
each conversation of the list, and a ticket whose fetch succeeds gets the
projected list attached under `conversations`. -/
theorem conversation_projection_spec :
    (∀ (conv : JVal) (k : String),
        (projectConv conv).index k =
          if k = "body_text" then some (conv.getD "body_text")
          else if k = "id" then some (conv.getD "id")
          else if k = "updated_at" then some (conv.getD "updated_at")
          else if k = "from_email" then some (conv.getD "from_email")
          else none) ∧
    (∀ (fields : List (String × JVal)) (k : String),
        lookup? fields k = none → lookupD fields k = JVal.null) ∧
    (∀ (convs : List JVal) (i : Nat),
        (filterConversations convs)[i]? = (convs[i]?).map projectConv) ∧
    (∀ (convApi : JVal → Except String (List JVal))
        (tickets : List (List (String × JVal))) (i : Nat)
        (ticket : List (String × JVal)) (convs : List JVal),
        tickets[i]? = some ticket →
        (lookupD ticket "id").truthy = true →
        convApi (lookupD ticket "id") = .ok convs →
        (fetch_conversations convApi tickets)[i]? =
          some (setKey ticket "conversations" (.arr (filterConversations convs)))) := by
  refine ⟨?_, ?_, ?_, ?_⟩
  · intro conv k
    simp only [projectConv, JVal.index, lookup?]
    by_cases h1 : k = "body_text"
    · simp [h1]
    · by_cases h2 : k = "id"
      · simp [h2, Ne.symm h1]
      · by_cases h3 : k = "updated_at"
        · simp [h3, Ne.symm h1, Ne.symm h2]
        · by_cases h4 : k = "from_email"
          · simp [h4, Ne.symm h1, Ne.symm h2, Ne.symm h3]
          · simp [h1, h2, h3, h4, Ne.symm h1, Ne.symm h2, Ne.symm h3, Ne.symm h4]
  · intro fields k h
    simp [lookupD, h]
  · intro convs i
    simp [filterConversations, List.getElem?_map]
  · intro convApi tickets i ticket convs ht htr hok
    simp only [fetch_conversations, List.getElem?_map, ht, Option.map_some']
    simp [htr, hok]

theorem conversation_projection_spec_witness :
    (fetch_conversations exConvApi exTickets)[0]? =
      some (setKey [("id", JVal.num 101), ("subject", JVal.str "a")] "conversations"
        (JVal.arr (filterConversations
          [JVal.obj [("body_text", JVal.str "hello"), ("id", JVal.num 7),
                     ("attachments", JVal.arr []), ("user_id", JVal.num 42)]]))) :=
  conversation_projection_spec.2.2.2 exConvApi exTickets 0
    [("id", JVal.num 101), ("subject", JVal.str "a")]
    [JVal.obj [("body_text", JVal.str "hello"), ("id", JVal.num 7),
               ("attachments", JVal.arr []), ("user_id", JVal.num 42)]]
    (by rfl) (by rfl) (by rfl)

/-- Claim C6: the enrichment never drops a ticket (the output has one entry
per accumulated ticket, in order); a ticket whose conversation fetch fails
with a request error still appears at its position with `conversations`
set to the empty list, its other fields untouched (`setKey` only changes
the `conversations` key). -/
theorem conversation_failure_spec :
    (∀ (convApi : JVal → Except String (List JVal))
        (tickets : List (List (String × JVal))),
        (fetch_conversations convApi tickets).length = tickets.length) ∧
    (∀ (convApi : JVal → Except String (List JVal))
        (tickets : List (List (String × JVal))) (i : Nat)
        (ticket : List (String × JVal)) (e : String),
        tickets[i]? = some ticket →
        (lookupD ticket "id").truthy = true →
        convApi (lookupD ticket "id") = .error e →
        (fetch_conversations convApi tickets)[i]? =
          some (setKey ticket "conversations" (.arr []))) ∧
    (∀ (ticket : List (String × JVal)) (v : JVal) (k : String), k ≠ "conversations" →
        lookup? (setKey ticket "conversations" v) k = lookup? ticket k) ∧
    (∀ (ticket : List (String × JVal)) (v : JVal),
        lookup? (setKey ticket "conversations" v) "conversations" = some v) := by
  refine ⟨?_, ?_, ?_, ?_⟩
  · intro convApi tickets
    simp [fetch_conversations]
  · intro convApi tickets i ticket e ht htr herr
    simp only [fetch_conversations, List.getElem?_map, ht, Option.map_some']
    simp [htr, herr]
  · intro ticket v k hne
    exact lookup?_setKey_ne ticket "conversations" k v hne
  · intro ticket v
    exact lookup?_setKey_self ticket "conversations" v

theorem conversation_failure_spec_witness :
    (fetch_conversations exConvApi exTickets)[1]? =
      some (setKey [("id", JVal.num 202), ("subject", JVal.str "b")] "conversations"
        (JVal.arr [])) :=
  conversation_failure_spec.2.1 exConvApi exTickets 1
    [("id", JVal.num 202), ("subject", JVal.str "b")] "connection reset"
    (by rfl) (by rfl) (by rfl)

theorem invoke_create (cfg : Config) (api : Api) (args : Args)
    (h : args.action = "create_ticket") :
    invoke cfg api args = createTicket cfg api args := by
  simp [invoke, h]

theorem invoke_get (cfg : Config) (api : Api) (args : Args)
    (h : args.action = "get_tickets") :
    invoke cfg api args = getTickets cfg api args := by
  simp [invoke, h]

theorem invoke_close (cfg : Config) (api : Api) (args : Args)
    (h : args.action = "close_ticket") :
    invoke cfg api args = closeTicket cfg api args := by
  simp [invoke, h]

theorem invoke_update (cfg : Config) (api : Api) (args : Args)
    (h : args.action = "update_ticket_priority") :
    invoke cfg api args = updateTicketPriority cfg api args := by
  simp [invoke, h]

theorem closeTicket_mismatch (cfg : Config) (api : Api) (args : Args) (tid : Int)
    (email : String) (ticket : JVal)
    (h1 : args.ticket_id = some tid)
    (h2 : args.requester_email = some email)
    (h3 : api (fetchTicketReq tid) = .ok ticket)
    (h4 : requesterMismatch ticket email = true) :
    closeTicket cfg api args = ([fetchTicketReq tid], .error (.valueError emailMismatchMsg)) := by
  simp only [closeTicket, h1, h2, make_request]
  rw [show ({ method := "GET", endpoint := "tickets/" ++ toString tid, data := none,
              params := some [("include", "requester")] } : Request) = fetchTicketReq tid from rfl,
      h3]
  simp [h4]

theorem getTicketsId_mismatch (cfg : Config) (api : Api) (args : Args) (tid : Int)
    (email : String) (ticket : JVal)
    (h0 : args.search_by = some "id")
    (h1 : args.ticket_id = some tid)
    (h2 : args.requester_email = some email)
    (h3 : api (fetchTicketReq tid) = .ok ticket)
    (h4 : requesterMismatch ticket email = true) :
    getTickets cfg api args = ([fetchTicketReq tid], .error (.valueError emailMismatchMsg)) := by
  simp only [getTickets, h0, h1, h2, make_request, if_pos rfl]
  rw [show ({ method := "GET", endpoint := "tickets/" ++ toString tid, data := none,
              params := some [("include", "requester")] } : Request) = fetchTicketReq tid from rfl,
      h3]
  simp [h4]

theorem updatePriority_mismatch (cfg : Config) (api : Api) (args : Args) (tid : Int)
    (email : String) (p : Int) (ticket : JVal)
    (h1 : args.ticket_id = some tid)
    (h2 : args.requester_email = some email)
    (hp : args.priority = some p)
    (hpv : (([1, 2, 3, 4] : List Int).contains p) = true)
    (h3 : api (fetchTicketReq tid) = .ok ticket)
    (h4 : requesterMismatch ticket email = true) :
    updateTicketPriority cfg api args =
      ([fetchTicketReq tid], .error (.valueError emailMismatchMsg)) := by
  simp only [updateTicketPriority, h1, h2, hp, hpv, Bool.not_true, make_request]
  rw [show ({ method := "GET", endpoint := "tickets/" ++ toString tid, data := none,
              params := some [("include", "requester")] } : Request) = fetchTicketReq tid from rfl,
      h3]
  simp [h4]

theorem closeTicket_already (cfg : Config) (api : Api) (args : Args) (tid : Int)
    (email : String) (ticket tidv : JVal)
    (h1 : args.ticket_id = some tid)
    (h2 : args.requester_email = some email)
    (h3 : api (fetchTicketReq tid) = .ok ticket)
    (h4 : requesterMismatch ticket email = false)
    (h5 : (ticket.getD "status").eqNum 5 = true)
    (hid : ticket.index "id" = some tidv) :
    closeTicket cfg api args =
      ([fetchTicketReq tid], .ok
        { message := "Ticket is already closed",
          ticket_id := some tidv,
          url := some (ticketUrl cfg.domain tidv),
          ticket := some ticket,
          tickets := none,
          sources := [{ toolCallDescription := "Checked status of Freshdesk ticket #" ++ toString tid,
                        items := [{ itemType := "SIMPLE_DOCUMENT",
                                    title := "Ticket #" ++ tidv.render,
                                    url := ticketUrl cfg.domain tidv }] }] }) := by
  simp only [closeTicket, h1, h2, make_request]
  rw [show ({ method := "GET", endpoint := "tickets/" ++ toString tid, data := none,
              params := some [("include", "requester")] } : Request) = fetchTicketReq tid from rfl,
      h3]
  simp [h4, h5, hid]

theorem updatePriority_already (cfg : Config) (api : Api) (args : Args) (tid : Int)
    (email : String) (p : Int) (ticket tidv : JVal)
    (h1 : args.ticket_id = some tid)
    (h2 : args.requester_email = some email)
    (hp : args.priority = some p)
    (hpv : (([1, 2, 3, 4] : List Int).contains p) = true)
    (h3 : api (fetchTicketReq tid) = .ok ticket)
    (h4 : requesterMismatch ticket email = false)
    (h5 : (ticket.getD "priority").eqNum p = true)
    (hid : ticket.index "id" = some tidv) :
    updateTicketPriority cfg api args =
      ([fetchTicketReq tid], .ok
        { message := "Ticket priority is already at the requested level",
          ticket_id := some tidv,
          url := some (ticketUrl cfg.domain tidv),
          ticket := some ticket,
          tickets := none,
          sources := [{ toolCallDescription := "Checked priority of Freshdesk ticket #" ++ toString tid,
                        items := [{ itemType := "SIMPLE_DOCUMENT",
                                    title := "Ticket #" ++ tidv.render,
                                    url := ticketUrl cfg.domain tidv }] }] }) := by
  simp only [updateTicketPriority, h1, h2, hp, hpv, Bool.not_true, make_request]
  rw [show ({ method := "GET", endpoint := "tickets/" ++ toString tid, data := none,
              params := some [("include", "requester")] } : Request) = fetchTicketReq tid from rfl,
      h3]
  simp [h4, h5, hid]

theorem closeTicket_success (cfg : Config) (api : Api) (args : Args) (tid : Int)
    (email : String) (ticket result noteRes rid : JVal)
    (h1 : args.ticket_id = some tid)
    (h2 : args.requester_email = some email)
    (h3 : api (fetchTicketReq tid) = .ok ticket)
    (h4 : requesterMismatch ticket email = false)
    (h5 : (ticket.getD "status").eqNum 5 = false)
    (h6 : api (closePutReq tid) = .ok result)
    (h7 : api (closeNoteReq tid email) = .ok noteRes)
    (hid : result.index "id" = some rid) :
    closeTicket cfg api args =
      ([fetchTicketReq tid, closePutReq tid, closeNoteReq tid email], .ok
        { message := "Ticket closed successfully",
          ticket_id := some rid,
          url := some (ticketUrl cfg.domain rid),
          ticket := some result,
          tickets := none,
          sources := [{ toolCallDescription := "Closed Freshdesk ticket #" ++ toString tid,
                        items := [{ itemType := "SIMPLE_DOCUMENT",
                                    title := "Ticket #" ++ rid.render,
                                    url := ticketUrl cfg.domain rid }] }] }) := by
  simp only [closeTicket, h1, h2, make_request]
  rw [show ({ method := "GET", endpoint := "tickets/" ++ toString tid, data := none,
              params := some [("include", "requester")] } : Request) = fetchTicketReq tid from rfl,
      h3]
  simp only [h4, Bool.false_eq_true, if_false, h5]
  rw [show ({ method := "PUT", endpoint := "tickets/" ++ toString tid,
              data := some [("status", JVal.num 5)], params := none } : Request) =
        closePutReq tid from rfl,
      h6]
  rw [show ({ method := "POST", endpoint := "tickets/" ++ toString tid ++ "/notes",
              data := some [("body", JVal.str ("Ticket closed as requested by the original requester (" ++ email ++ ")")),
                            ("private", JVal.bool false)], params := none } : Request) =
        closeNoteReq tid email from rfl,
      h7]
  simp [hid]

theorem updatePriority_success (cfg : Config) (api : Api) (args : Args) (tid : Int)
    (email : String) (p : Int) (ticket result noteRes rid : JVal)
    (h1 : args.ticket_id = some tid)
    (h2 : args.requester_email = some email)
    (hp : args.priority = some p)
    (hpv : (([1, 2, 3, 4] : List Int).contains p) = true)
    (h3 : api (fetchTicketReq tid) = .ok ticket)
    (h4 : requesterMismatch ticket email = false)
    (h5 : (ticket.getD "priority").eqNum p = false)
    (h6 : api (priorityPutReq tid p) = .ok result)
    (h7 : api (priorityNoteReq tid p email) = .ok noteRes)
    (hid : result.index "id" = some rid) :
    updateTicketPriority cfg api args =
      ([fetchTicketReq tid, priorityPutReq tid p, priorityNoteReq tid p email], .ok
        { message := "Ticket priority updated successfully",
          ticket_id := some rid,
          url := some (ticketUrl cfg.domain rid),
          ticket := some result,
          tickets := none,
          sources := [{ toolCallDescription := "Updated priority of Freshdesk ticket #" ++ toString tid ++
                          " to " ++ toString p,
                        items := [{ itemType := "SIMPLE_DOCUMENT",
                                    title := "Ticket #" ++ rid.render,
                                    url := ticketUrl cfg.domain rid }] }] }) := by
  simp only [updateTicketPriority, h1, h2, hp, hpv, Bool.not_true, make_request]
  rw [show ({ method := "GET", endpoint := "tickets/" ++ toString tid, data := none,
              params := some [("include", "requester")] } : Request) = fetchTicketReq tid from rfl,
      h3]
  simp only [h4, Bool.false_eq_true, if_false, h5]
  rw [show ({ method := "PUT", endpoint := "tickets/" ++ toString tid,
              data := some [("priority", JVal.num p)], params := none } : Request) =
        priorityPutReq tid p from rfl,
      h6]
  rw [show ({ method := "POST", endpoint := "tickets/" ++ toString tid ++ "/notes",
              data := some [("body", JVal.str ("Ticket priority updated to " ++ priorityLevelName p ++
                              " as requested by the original requester (" ++ email ++ ")")),
                            ("private", JVal.bool false)], params := none } : Request) =
        priorityNoteReq tid p email from rfl,
      h7]
  simp [hid]

/-- Claim C1: each of the three authorization-gated actions (get_tickets
with search_by "id", close_ticket, update_ticket_priority) first issues the
fetch-with-requester GET and, when the fetched ticket's requester email
differs from the caller-supplied requester_email, raises the authorization
`ValueError` with the fetch as the only request issued — so no PUT or POST
is ever sent, even though the ticket exists. -/
theorem auth_gate_spec :
    ∀ (cfg : Config) (api : Api) (args : Args) (tid : Int) (email : String) (ticket : JVal),
      args.ticket_id = some tid →
      args.requester_email = some email →
      api (fetchTicketReq tid) = .ok ticket →
      requesterMismatch ticket email = true →
      ((args.action = "get_tickets" → args.search_by = some "id" →
          invoke cfg api args = ([fetchTicketReq tid], .error (.valueError emailMismatchMsg))) ∧
       (args.action = "close_ticket" →
          invoke cfg api args = ([fetchTicketReq tid], .error (.valueError emailMismatchMsg))) ∧
       (∀ p : Int, args.action = "update_ticket_priority" → args.priority = some p →
          (([1, 2, 3, 4] : List Int).contains p) = true →
          invoke cfg api args = ([fetchTicketReq tid], .error (.valueError emailMismatchMsg))) ∧
       (∀ r ∈ [fetchTicketReq tid], r.method ≠ "PUT" ∧ r.method ≠ "POST")) := by
  intro cfg api args tid email ticket h1 h2 h3 h4
  refine ⟨?_, ?_, ?_, ?_⟩
  · intro hact hsb
    rw [invoke_get cfg api args hact]
    exact getTicketsId_mismatch cfg api args tid email ticket hsb h1 h2 h3 h4
  · intro hact
    rw [invoke_close cfg api args hact]
    exact closeTicket_mismatch cfg api args tid email ticket h1 h2 h3 h4
  · intro p hact hp hpv
    rw [invoke_update cfg api args hact]
    exact updatePriority_mismatch cfg api args tid email p ticket h1 h2 hp hpv h3 h4
  · intro r hr
    simp only [List.mem_singleton] at hr
    subst hr
    exact ⟨by simp [fetchTicketReq], by simp [fetchTicketReq]⟩

theorem auth_gate_spec_witness :
    invoke exCfg exApiOpen argsGetByIdWrong =
      ([fetchTicketReq 101], .error (.valueError emailMismatchMsg)) ∧
    invoke exCfg exApiOpen argsCloseWrong =
      ([fetchTicketReq 101], .error (.valueError emailMismatchMsg)) ∧
    invoke exCfg exApiOpen argsUpdateWrong =
      ([fetchTicketReq 101], .error (.valueError emailMismatchMsg)) :=
  ⟨(auth_gate_spec exCfg exApiOpen argsGetByIdWrong 101 "bob@example.com" aliceTicket
      rfl rfl rfl rfl).1 rfl rfl,
   (auth_gate_spec exCfg exApiOpen argsCloseWrong 101 "bob@example.com" aliceTicket
      rfl rfl rfl rfl).2.1 rfl,
   (auth_gate_spec exCfg exApiOpen argsUpdateWrong 101 "bob@example.com" aliceTicket
      rfl rfl rfl rfl).2.2.1 3 rfl rfl rfl⟩

/-- Claim C8: close_ticket on a ticket whose fetched status is already 5
and update_ticket_priority with the requested priority equal to the
ticket's current priority both return an "already ..." result after the
fetch alone — the trace is just the one GET, so zero PUT and zero POST
calls and the ticket state is untouched. -/
theorem idempotent_early_return_spec :
    ∀ (cfg : Config) (api : Api) (args : Args) (tid : Int) (email : String) (ticket tidv : JVal),
      args.ticket_id = some tid →
      args.requester_email = some email →
      api (fetchTicketReq tid) = .ok ticket →
      requesterMismatch ticket email = false →
      ticket.index "id" = some tidv →
      ((args.action = "close_ticket" → (ticket.getD "status").eqNum 5 = true →
          ∃ out, invoke cfg api args = ([fetchTicketReq tid], .ok out) ∧
            out.message = "Ticket is already closed" ∧ out.ticket = some ticket) ∧
       (∀ p : Int, args.action = "update_ticket_priority" → args.priority = some p →
          (([1, 2, 3, 4] : List Int).contains p) = true →
          (ticket.getD "priority").eqNum p = true →
          ∃ out, invoke cfg api args = ([fetchTicketReq tid], .ok out) ∧
            out.message = "Ticket priority is already at the requested level" ∧
            out.ticket = some ticket) ∧
       (∀ r ∈ [fetchTicketReq tid], r.method ≠ "PUT" ∧ r.method ≠ "POST")) := by
  intro cfg api args tid email ticket tidv h1 h2 h3 h4 hid
  refine ⟨?_, ?_, ?_⟩
  · intro hact h5
    rw [invoke_close cfg api args hact,
        closeTicket_already cfg api args tid email ticket tidv h1 h2 h3 h4 h5 hid]
    exact ⟨_, rfl, rfl, rfl⟩
  · intro p hact hp hpv h5
    rw [invoke_update cfg api args hact,
        updatePriority_already cfg api args tid email p ticket tidv h1 h2 hp hpv h3 h4 h5 hid]
    exact ⟨_, rfl, rfl, rfl⟩
  · intro r hr
    simp only [List.mem_singleton] at hr
    subst hr
    exact ⟨by simp [fetchTicketReq], by simp [fetchTicketReq]⟩

theorem idempotent_early_return_spec_witness :
    (∃ out, invoke exCfg exApiClosed argsClose = ([fetchTicketReq 101], .ok out) ∧
       out.message = "Ticket is already closed" ∧ out.ticket = some aliceClosedTicket) ∧
    (∃ out, invoke exCfg exApiOpen argsUpdateSame = ([fetchTicketReq 101], .ok out) ∧
       out.message = "Ticket priority is already at the requested level" ∧
       out.ticket = some aliceTicket) :=
  ⟨(idempotent_early_return_spec exCfg exApiClosed argsClose 101 "alice@example.com"
      aliceClosedTicket (JVal.num 101) rfl rfl rfl rfl rfl).1 rfl rfl,
   (idempotent_early_return_spec exCfg exApiOpen argsUpdateSame 101 "alice@example.com"
      aliceTicket (JVal.num 101) rfl rfl rfl rfl rfl).2.1 1 rfl rfl rfl rfl⟩

/-- Claim C9: a successful (non-early-return) close_ticket or
update_ticket_priority issues exactly the three requests
fetch (GET), status/priority update (PUT), audit note (POST), in that
order — so exactly one PUT and exactly one POST, the PUT strictly before
the POST, and each step's response gates the next (the trace is exactly
the sequential fetch→authorize→mutate→annotate chain). -/
theorem mutation_trace_spec :
    ∀ (cfg : Config) (api : Api) (args : Args) (tid : Int) (email : String)
      (ticket result noteRes rid : JVal),
      args.ticket_id = some tid →
      args.requester_email = some email →
      api (fetchTicketReq tid) = .ok ticket →
      requesterMismatch ticket email = false →
      result.index "id" = some rid →
      ((args.action = "close_ticket" →
          (ticket.getD "status").eqNum 5 = false →
          api (closePutReq tid) = .ok result →
          api (closeNoteReq tid email) = .ok noteRes →
          (∃ out, invoke cfg api args =
              ([fetchTicketReq tid, closePutReq tid, closeNoteReq tid email], .ok out) ∧
            out.message = "Ticket closed successfully") ∧
          (invoke cfg api args).1.map Request.method = ["GET", "PUT", "POST"]) ∧
       (∀ p : Int, args.action = "update_ticket_priority" → args.priority = some p →
          (([1, 2, 3, 4] : List Int).contains p) = true →
          (ticket.getD "priority").eqNum p = false →
          api (priorityPutReq tid p) = .ok result →
          api (priorityNoteReq tid p email) = .ok noteRes →
          (∃ out, invoke cfg api args =
              ([fetchTicketReq tid, priorityPutReq tid p, priorityNoteReq tid p email], .ok out) ∧
            out.message = "Ticket priority updated successfully") ∧
          (invoke cfg api args).1.map Request.method = ["GET", "PUT", "POST"])) := by
  intro cfg api args tid email ticket result noteRes rid h1 h2 h3 h4 hid
  refine ⟨?_, ?_⟩
  · intro hact h5 h6 h7
    rw [invoke_close cfg api args hact,
        closeTicket_success cfg api args tid email ticket result noteRes rid
          h1 h2 h3 h4 h5 h6 h7 hid]
    exact ⟨⟨_, rfl, rfl⟩, rfl⟩
  · intro p hact hp hpv h5 h6 h7
    rw [invoke_update cfg api args hact,
        updatePriority_success cfg api args tid email p ticket result noteRes rid
          h1 h2 hp hpv h3 h4 h5 h6 h7 hid]
    exact ⟨⟨_, rfl, rfl⟩, rfl⟩

theorem mutation_trace_spec_witness :
    (∃ out, invoke exCfg exApiOpen argsClose =
        ([fetchTicketReq 101, closePutReq 101, closeNoteReq 101 "alice@example.com"], .ok out) ∧
      out.message = "Ticket closed successfully") ∧
    (invoke exCfg exApiOpen argsClose).1.map Request.method = ["GET", "PUT", "POST"] :=
  (mutation_trace_spec exCfg exApiOpen argsClose 101 "alice@example.com" aliceTicket
    (JVal.obj [("id", JVal.num 101), ("status", JVal.num 5)]) (JVal.obj [("id", JVal.num 900)])
    (JVal.num 101) rfl rfl rfl rfl rfl).1 rfl rfl rfl rfl

/-- Claim C10: in a successful mutation the unique PUT of the trace is the
update request whose body is exactly the single updated field —
`status: 5` for close_ticket and `priority: p` for
update_ticket_priority — so no other ticket field is included in the
update request. -/
theorem put_body_frame_spec :
    ∀ (cfg : Config) (api : Api) (args : Args) (tid : Int) (email : String)
      (ticket result noteRes rid : JVal),
      args.ticket_id = some tid →
      args.requester_email = some email →
      api (fetchTicketReq tid) = .ok ticket →
      requesterMismatch ticket email = false →
      result.index "id" = some rid →
      ((args.action = "close_ticket" →
          (ticket.getD "status").eqNum 5 = false →
          api (closePutReq tid) = .ok result →
          api (closeNoteReq tid email) = .ok noteRes →
          (invoke cfg api args).1.filter (fun r => r.method == "PUT") = [closePutReq tid] ∧
          (closePutReq tid).data = some [("status", JVal.num 5)]) ∧
       (∀ p : Int, args.action = "update_ticket_priority" → args.priority = some p →
          (([1, 2, 3, 4] : List Int).contains p) = true →
          (ticket.getD "priority").eqNum p = false →
          api (priorityPutReq tid p) = .ok result →
          api (priorityNoteReq tid p email) = .ok noteRes →
          (invoke cfg api args).1.filter (fun r => r.method == "PUT") = [priorityPutReq tid p] ∧
          (priorityPutReq tid p).data = some [("priority", JVal.num p)])) := by
  intro cfg api args tid email ticket result noteRes rid h1 h2 h3 h4 hid
  refine ⟨?_, ?_⟩
  · intro hact h5 h6 h7
    rw [invoke_close cfg api args hact,
        closeTicket_success cfg api args tid email ticket result noteRes rid
          h1 h2 h3 h4 h5 h6 h7 hid]
    exact ⟨rfl, rfl⟩
  · intro p hact hp hpv h5 h6 h7
    rw [invoke_update cfg api args hact,
        updatePriority_success cfg api args tid email p ticket result noteRes rid
          h1 h2 hp hpv h3 h4 h5 h6 h7 hid]
    exact ⟨rfl, rfl⟩

theorem put_body_frame_spec_witness :
    (invoke exCfg exApiOpen argsUpdate).1.filter (fun r => r.method == "PUT") =
      [priorityPutReq 101 3] ∧
    (priorityPutReq 101 3).data = some [("priority", JVal.num 3)] :=
  (put_body_frame_spec exCfg exApiOpen argsUpdate 101 "alice@example.com" aliceTicket
    (JVal.obj [("id", JVal.num 101), ("status", JVal.num 5)]) (JVal.obj [("id", JVal.num 900)])
    (JVal.num 101) rfl rfl rfl rfl rfl).2 3 rfl rfl rfl rfl rfl rfl

/-- Claim C7: create_ticket validation raises a `ValueError` with the empty
request trace (no network call) whenever: a required field is missing (the
error names the first missing field in source order); the present priority
is outside the set 1..4 or the present status outside 2..5 (the error
names the allowed set); or the present type is outside the configured
allow-list (the error names the list).  Each later check is stated under
the earlier checks passing, matching the source's validation order. -/
theorem create_validation_spec :
    ∀ (cfg : Config) (api : Api) (args : Args),
      args.action = "create_ticket" →
      ((args.subject = none →
          invoke cfg api args = ([], .error (.valueError "Missing required field: subject"))) ∧
       (∀ s, args.subject = some s → args.description = none →
          invoke cfg api args = ([], .error (.valueError "Missing required field: description"))) ∧
       (∀ s d, args.subject = some s → args.description = some d →
          args.requester_email = none →
          invoke cfg api args = ([], .error (.valueError "Missing required field: requester_email"))) ∧
       (∀ s d e, args.subject = some s → args.description = some d →
          args.requester_email = some e → args.name = none →
          invoke cfg api args = ([], .error (.valueError "Missing required field: name"))) ∧
       (∀ s d e n p, args.subject = some s → args.description = some d →
          args.requester_email = some e → args.name = some n →
          args.priority = some p → (([1, 2, 3, 4] : List Int).contains p) = false →
          invoke cfg api args =
            ([], .error (.valueError "Priority must be one of: 1 (Low), 2 (Medium), 3 (High), 4 (Urgent)"))) ∧
       (∀ s d e n st, args.subject = some s → args.description = some d →
          args.requester_email = some e → args.name = some n →
          invalidOpt args.priority [1, 2, 3, 4] = false →
          args.status = some st → (([2, 3, 4, 5] : List Int).contains st) = false →
          invoke cfg api args =
            ([], .error (.valueError "Status must be one of: 2 (Open), 3 (Pending), 4 (Resolved), 5 (Closed)"))) ∧
       (∀ s d e n t, args.subject = some s → args.description = some d →
          args.requester_email = some e → args.name = some n →
          invalidOpt args.priority [1, 2, 3, 4] = false →
          invalidOpt args.status [2, 3, 4, 5] = false →
          args.type = some t → (cfg.ticket_types.contains t) = false →
          invoke cfg api args =
            ([], .error (.valueError ("Type must be one of: " ++ String.intercalate ", " cfg.ticket_types))))) := by
  intro cfg api args hact
  rw [invoke_create cfg api args hact]
  refine ⟨?_, ?_, ?_, ?_, ?_, ?_, ?_⟩
  · intro hsub
    simp [createTicket, hsub]
  · intro s hs hd
    simp [createTicket, hs, hd]
  · intro s d hs hd he
    simp [createTicket, hs, hd, he]
  · intro s d e hs hd he hn
    simp [createTicket, hs, hd, he, hn]
  · intro s d e n p hs hd he hn hp hpv
    have hinv : invalidOpt args.priority [1, 2, 3, 4] = true := by
      rw [hp]
      simp only [invalidOpt, hpv, Bool.not_false]
    simp [createTicket, hs, hd, he, hn, hinv]
  · intro s d e n st hs hd he hn hpok hst hstv
    have hinv : invalidOpt args.status [2, 3, 4, 5] = true := by
      rw [hst]
      simp only [invalidOpt, hstv, Bool.not_false]
    simp [createTicket, hs, hd, he, hn, hpok, hinv]
  · intro s d e n t hs hd he hn hpok hstok ht htv
    have hinv : invalidType args.type cfg.ticket_types = true := by
      rw [ht]
      simp only [invalidType, htv, Bool.not_false]
    simp [createTicket, hs, hd, he, hn, hpok, hstok, hinv]

theorem create_validation_spec_witness :
    invoke exCfg exApiOpen { argsCreate with priority := some 5 } =
      ([], .error (.valueError "Priority must be one of: 1 (Low), 2 (Medium), 3 (High), 4 (Urgent)")) :=
  (create_validation_spec exCfg exApiOpen { argsCreate with priority := some 5 }
    rfl).2.2.2.2.1 "Printer down" "The printer is on fire" "alice@example.com" "Alice" 5
    rfl rfl rfl rfl rfl rfl
